import Mathlib

/-!
Shallow embedding of the prediction-and-state service of the
AI-Energy-Optimizer repository.

Sources embedded here:
* `backend/weather_service.py` — the `WeatherService` class (temperature
  cache, full weather reading, configured city);
* `backend/app.py` — the Flask views `predict` and `set_city`, the
  `rule_based_predict` formula and the in-memory `sensor_data` snapshot;
* `streamlit_app.py` — the dashboard's sensor-power extraction, its
  client-side fallback prediction formula and its dynamic safety-buffer
  clamp.

Modelling conventions: Python floats and times are exact rationals (`ℚ`),
except where the prediction formula needs `Real.sin`, in which case `ℝ`
is used; `None`/absent JSON keys are `Option.none`; an uncaught Python
exception in a Flask view is `Except.error`, which Flask surfaces as an
HTTP 500; the outcome a network fetch would have is passed in as an
explicit parameter, together with the current value of `time.time()`.
-/

/-- Outcome of one attempted network fetch on the temperature-only path
(`weather_service.py`, lines 34-62): `ok t` is a 200 response whose JSON
body carries `main.temp = t`; `badFormat` is a 200 response missing the
`main`/`temp` fields (line 53); `requestError` is the
`requests.exceptions.RequestException` arm (line 57), which includes the
HTTP errors raised by `raise_for_status` and timeouts; `otherError` is
the catch-all `except Exception` arm (line 60). -/
inductive FetchResult where
  | ok (temp : ℚ)
  | badFormat
  | requestError (msg : String)
  | otherError (msg : String)
deriving DecidableEq

/-- State of a `WeatherService` instance (`weather_service.py`, lines
13-20).  Python's `_last_fetch` and `_cached_data` are modelled without
the leading underscore. -/
structure WeatherService where
  api_key : Option String
  city : String
  base_url : String
  cache_timeout : ℚ
  last_fetch : ℚ
  cached_data : Option ℚ
deriving DecidableEq

/-- `WeatherService.__init__` (lines 14-20): the key is the constructor
argument if truthy, else the `OWM_API_KEY` environment value (`env`
models `os.getenv`, `none` when the variable is unset); Python
truthiness makes both `None` and `""` fall through to the environment. -/
def WeatherService.init (api_key : Option String) (env : Option String) (city : String) :
    WeatherService :=
  { api_key :=
      match api_key with
      | some k => if k = "" then env else some k
      | none => env
    city := city
    base_url := "https://api.openweathermap.org/data/2.5/weather"
    cache_timeout := 300
    last_fetch := 0
    cached_data := none }

/-- Truthiness of `self.api_key` (`if not self.api_key`, lines 24 and
66): `None` and the empty string are falsy. -/
def hasKey (s : WeatherService) : Bool :=
  match s.api_key with
  | none => false
  | some k => if k = "" then false else true

/-- Body of the `try` block of `get_current_temperature` (lines 34-62):
a well-formed 200 response caches the value with the current time and
returns it; a malformed body or either `except` arm returns the default
22.0 without touching the cache.  The `Bool` records that the network
was consulted. -/
def fetchFresh (s : WeatherService) (now : ℚ) (fetch : FetchResult) :
    ℚ × WeatherService × Bool :=
  match fetch with
  | .ok t => (t, { s with cached_data := some t, last_fetch := now }, true)
  | .badFormat => (22, s, true)
  | .requestError _ => (22, s, true)
  | .otherError _ => (22, s, true)

/-- `WeatherService.get_current_temperature` (lines 22-62).  `now` is
`time.time()` and `fetch` the outcome the network would produce if
consulted; the `Bool` in the result tells whether it was consulted.
The cache test on line 31 is
`if self._cached_data and (current_time - self._last_fetch) < self.cache_timeout`;
Python float truthiness makes a cached `0.0` falsy, hence the `v ≠ 0`
conjunct. -/
def get_current_temperature (s : WeatherService) (now : ℚ) (fetch : FetchResult) :
    ℚ × WeatherService × Bool :=
  if hasKey s = false then (22, s, false)
  else
    match s.cached_data with
    | some v =>
        if v ≠ 0 ∧ now - s.last_fetch < s.cache_timeout then (v, s, false)
        else fetchFresh s now fetch
    | none => fetchFresh s now fetch

/-- The cache-validity test of line 31 in isolation, as a Boolean. -/
def cacheHit (s : WeatherService) (now : ℚ) : Bool :=
  match s.cached_data with
  | none => false
  | some v => decide (v ≠ 0 ∧ now - s.last_fetch < s.cache_timeout)

/-- Helper for `pyTitle`: Python's `str.title()` uppercases the first
letter of each maximal alphabetic run and lowercases the rest (ASCII
approximation of Python's cased-character classes). -/
def pyTitleAux : List Char → Bool → List Char
  | [], _ => []
  | c :: cs, prevAlpha =>
      if c.isAlpha then
        (if prevAlpha then c.toLower else c.toUpper) :: pyTitleAux cs true
      else
        c :: pyTitleAux cs false

/-- Python's `str.title()`, applied to the weather description on line
88 of `weather_service.py`. -/
def pyTitle (str : String) : String := String.mk (pyTitleAux str.data false)

/-- Parsed fields of a well-formed full-weather response as
`get_weather_info` reads them: `main.temp` and `weather[0].description`
must be present — their absence raises inside the `try` block and is
folded into the `exn` case of `InfoFetch` — while `name`,
`main.humidity` and `main.feels_like` are optional (lines 87-91). -/
structure OwmResponse where
  temp : ℚ
  description : String
  name : Option String
  humidity : Option ℤ
  feels_like : Option ℚ

/-- Outcome of the fetch inside `get_weather_info` (lines 74-101):
`exn msg` covers every exception the `try` block can raise — network
errors, non-2xx statuses from `raise_for_status`, JSON errors and
missing mandatory fields. -/
inductive InfoFetch where
  | ok (r : OwmResponse)
  | exn (msg : String)

/-- Dictionary returned by `get_weather_info`; `humidity` and
`feels_like` are `none` when the corresponding keys are absent (the
no-key dictionary of lines 67-72 and the failure dictionary of lines
96-101 omit them). -/
structure WeatherReading where
  temperature : ℚ
  description : String
  city : String
  humidity : Option ℤ
  feels_like : Option ℚ
  error : Option String

/-- `WeatherService.get_weather_info` (lines 64-101).  The method never
assigns to `_cached_data` or `_last_fetch`, so the service state is
returned unchanged. -/
def get_weather_info (s : WeatherService) (fetch : InfoFetch) :
    WeatherReading × WeatherService :=
  if hasKey s = false then
    ({ temperature := 22, description := "Clear", city := s.city,
       humidity := none, feels_like := none, error := some "No API key" }, s)
  else
    match fetch with
    | .ok r =>
        ({ temperature := r.temp, description := pyTitle r.description,
           city := r.name.getD s.city, humidity := some (r.humidity.getD 0),
           feels_like := some (r.feels_like.getD r.temp), error := none }, s)
    | .exn msg =>
        ({ temperature := 22, description := "Unknown", city := s.city,
           humidity := none, feels_like := none, error := some msg }, s)

/-- `rule_based_predict` (`backend/app.py`, lines 41-52).  Python's
decimal literals `200.0`, `5.0`, `2.0`, `20.0`, `10.0`, `12.0`, `24.0`
denote these exact values; `is_weekend` arrives as a JSON integer and
`1 if int(is_weekend) else 0` is the truthiness test `is_weekend ≠ 0`. -/
noncomputable def rule_based_predict (hour temperature occupancy : ℝ) (is_weekend : ℤ) : ℝ :=
  let base : ℝ := 200.0
  let temp_component : ℝ := 5.0 * temperature
  let occ_component : ℝ := 2.0 * occupancy
  let weekend_component : ℝ := 20.0 * (if is_weekend ≠ 0 then 1 else 0)
  let hour_component : ℝ := 10.0 * Real.sin (2 * Real.pi * (hour - 12.0) / 24.0)
  base + temp_component + occ_component + weekend_component + hour_component

/-- Client-side fallback formula of the dashboard's
`get_backend_prediction` (`streamlit_app.py`, lines 269-274), used when
the backend is unreachable. -/
noncomputable def dashboard_fallback_predict (hour temperature occupancy : ℝ)
    (is_weekend : ℤ) : ℝ :=
  let base : ℝ := 200.0
  let temp_component : ℝ := 5.0 * temperature
  let occ_component : ℝ := 2.0 * occupancy
  let weekend_component : ℝ := 20.0 * (if is_weekend ≠ 0 then 1 else 0)
  let hour_component : ℝ := 10.0 * Real.sin (2 * Real.pi * (hour - 12.0) / 24.0)
  base + temp_component + occ_component + weekend_component + hour_component

/-- Python's `round` to an integer on an exact rational:
round-half-to-even. -/
def roundHalfEven (q : ℚ) : ℤ :=
  if q - ⌊q⌋ < 1/2 then ⌊q⌋
  else if 1/2 < q - ⌊q⌋ then ⌊q⌋ + 1
  else if ⌊q⌋ % 2 = 0 then ⌊q⌋ else ⌊q⌋ + 1

/-- Python's `round(x, 1)` on an exact rational. -/
def pyRound1 (q : ℚ) : ℚ := (roundHalfEven (10 * q) : ℚ) / 10

/-- Python's `round` to an integer on a real argument. -/
noncomputable def roundHalfEvenR (x : ℝ) : ℤ :=
  if x - ⌊x⌋ < 1/2 then ⌊x⌋
  else if 1/2 < x - ⌊x⌋ then ⌊x⌋ + 1
  else if ⌊x⌋ % 2 = 0 then ⌊x⌋ else ⌊x⌋ + 1

/-- Python's `round(x, 2)`, applied to the model output on line 81 of
`backend/app.py`. -/
noncomputable def pyRound2R (x : ℝ) : ℝ := (roundHalfEvenR (100 * x) : ℝ) / 100

/-- The in-memory `sensor_data` snapshot (`backend/app.py`, lines
87-92).  `/sensor_update` stores arbitrary JSON; these are the fields
its consumers read, with `none` for a JSON `null` or an absent key. -/
structure SensorSnap where
  occupancy : Option ℤ
  power_kW : Option ℚ
  temperature : Option ℚ
  timestamp : Option String
deriving DecidableEq

/-- Initial value of `sensor_data` (lines 87-92). -/
def initSensorData : SensorSnap :=
  { occupancy := some 0, power_kW := none, temperature := none, timestamp := none }

/-- Whole mutable state of the Flask process: the sensor snapshot and
the global `weather_service` instance (its cache entry and configured
city). -/
structure AppState where
  sensor : SensorSnap
  weather : WeatherService
deriving DecidableEq

/-- Body of a `POST /predict` request; `none` models an absent key. -/
structure PredictRequest where
  hour : Option ℚ
  temperature : Option ℚ
  occupancy : Option ℚ
  is_weekend : Option ℤ

/-- Body of a 200 response from `POST /predict` (lines 80-84). -/
structure PredictResponse where
  predicted_usage_kW : ℝ
  model_type : String
  temperature_used : ℚ

/-- The `predict` view (`backend/app.py`, lines 55-84).  A missing
required key makes `data["…"]` raise `KeyError` (`Except.error`);
`data.get("temperature")` never raises.  All four key accesses happen
before the weather lookup, so a `KeyError` leaves the state untouched.
The repository ships no artifact under `backend/models/`, so
`trained_model is None` and the rule-based branch runs with
`model_type = "rule-based"`.  `now` and `fetch` parameterize the weather
fetch performed when `temperature` is absent. -/
noncomputable def predict (st : AppState) (req : PredictRequest) (now : ℚ)
    (fetch : FetchResult) : Except String PredictResponse × AppState :=
  match req.hour with
  | none => (Except.error "KeyError: hour", st)
  | some hour =>
    match req.occupancy with
    | none => (Except.error "KeyError: occupancy", st)
    | some occupancy =>
      match req.is_weekend with
      | none => (Except.error "KeyError: is_weekend", st)
      | some is_weekend =>
        let tw : ℚ × WeatherService × Bool :=
          match req.temperature with
          | none => get_current_temperature st.weather now fetch
          | some t => (t, st.weather, false)
        let temperature : ℚ := tw.1
        let pred : ℝ :=
          rule_based_predict (hour : ℝ) (temperature : ℝ) (occupancy : ℝ) is_weekend
        (Except.ok
          { predicted_usage_kW := pyRound2R pred
            model_type := "rule-based"
            temperature_used := pyRound1 temperature },
         { st with weather := tw.2.1 })

/-- HTTP status Flask produces for a view outcome: 200 on a normal
return, 500 on an uncaught exception. -/
def statusOf {α : Type} (r : Except String α) : ℕ :=
  match r with
  | .ok _ => 200
  | .error _ => 500

/-- Body of a `POST /set_city` request; `none` models a missing `city`
key (or a missing JSON body, which `request.get_json() or {}` turns
into an empty dictionary). -/
structure SetCityRequest where
  city : Option String

/-- Python's `str.strip()` with no argument: drop leading and trailing
whitespace. -/
def pyStrip (s : String) : String :=
  String.mk (((s.data.dropWhile Char.isWhitespace).reverse.dropWhile
    Char.isWhitespace).reverse)

/-- The `set_city` view (`backend/app.py`, lines 114-123):
`city = (data.get("city") or "").strip()`; an empty result yields a 400
and no change, otherwise only the global weather service's `city`
attribute is reassigned. -/
def set_city (st : AppState) (req : SetCityRequest) :
    (ℕ × Option String) × AppState :=
  let city := pyStrip (req.city.getD "")
  if city = "" then ((400, none), st)
  else ((200, some city), { st with weather := { st.weather with city := city } })

/-- Sensor-power extraction in the dashboard's `fetch_sensor`
(`streamlit_app.py`, line 149): `float(data.get("power_kW") or 0.0)` —
an absent or null power reads as 0 (a stored 0 is falsy in Python but
`float(0.0)` is the same value). -/
def dashboard_power (s : SensorSnap) : ℚ :=
  match s.power_kW with
  | none => 0
  | some p => p

/-- Dynamic safety buffer computed by the dashboard (`streamlit_app.py`,
line 281): `max(10.0, min(60.0, round(0.15 * max(current_usage, 0.0), 1)))`. -/
def buffer_kW (current_usage : ℚ) : ℚ :=
  max 10 (min 60 (pyRound1 (0.15 * max current_usage 0)))

/-- `max_allowed` (`streamlit_app.py`, line 282). -/
def max_allowedQ (current_usage : ℚ) : ℚ :=
  max (current_usage - buffer_kW current_usage) 0

/-- Clamp the dashboard applies to the prediction it received from the
backend (`streamlit_app.py`, lines 282-284). -/
noncomputable def dashboard_clamp (pred_usage : ℝ) (current_usage : ℚ) : ℝ :=
  if (max_allowedQ current_usage : ℝ) < pred_usage then (max_allowedQ current_usage : ℝ)
  else pred_usage

/-! ### Helper lemmas and concrete states -/

/-- Rounding an integer rational to an integer is the identity. -/
theorem aux_roundHalfEven_intCast (n : ℤ) : roundHalfEven ((n : ℤ) : ℚ) = n := by
  unfold roundHalfEven
  rw [Int.floor_intCast]
  rw [if_pos (by norm_num)]

/-- `round(x, 2)` of an integer real value is the value itself. -/
theorem aux_pyRound2R_intCast (n : ℤ) : pyRound2R ((n : ℤ) : ℝ) = n := by
  unfold pyRound2R roundHalfEvenR
  have h : (100 : ℝ) * ((n : ℤ) : ℝ) = ((100 * n : ℤ) : ℝ) := by push_cast; ring
  rw [h, Int.floor_intCast, if_pos (by norm_num)]
  push_cast
  ring

/-- `round(x, 1)` of an integer rational is the value itself. -/
theorem aux_pyRound1_intCast (n : ℤ) : pyRound1 ((n : ℤ) : ℚ) = n := by
  unfold pyRound1
  have h : (10 : ℚ) * ((n : ℤ) : ℚ) = ((10 * n : ℤ) : ℚ) := by push_cast; ring
  rw [h, aux_roundHalfEven_intCast]
  push_cast
  ring

/-- The rule-based formula at noon with everything zeroed: the sine
term vanishes and only the base load remains. -/
theorem aux_noon : rule_based_predict 12 0 0 0 = 200 := by
  unfold rule_based_predict
  norm_num [Real.sin_zero]

/-- When the cache test fails, `get_current_temperature` goes to the
network. -/
theorem aux_get_temp_miss (s : WeatherService) (now : ℚ) (f : FetchResult)
    (hk : hasKey s = true) (hm : cacheHit s now = false) :
    get_current_temperature s now f = fetchFresh s now f := by
  unfold cacheHit at hm
  unfold get_current_temperature
  cases hs : s.cached_data with
  | none => simp [hk]
  | some v =>
      rw [hs] at hm
      simp only [decide_eq_false_iff_not] at hm
      simp [hk, hm]

/-- When the cache test succeeds, `get_current_temperature` serves the
cached value without consulting the network or changing state. -/
theorem aux_get_temp_hit (s : WeatherService) (now : ℚ) (f : FetchResult) (v : ℚ)
    (hk : hasKey s = true) (hv : s.cached_data = some v) (h0 : v ≠ 0)
    (ht : now - s.last_fetch < s.cache_timeout) :
    get_current_temperature s now f = (v, s, false) := by
  unfold get_current_temperature
  simp [hk, hv, h0, ht]

/-- Every branch of `fetchFresh` reports that the network was
consulted. -/
theorem aux_fetchFresh_fetched (s : WeatherService) (now : ℚ) (f : FetchResult) :
    (fetchFresh s now f).2.2 = true := by
  cases f <;> rfl

/-- Weather service in API-key mode with an empty cache: the global
instance constructed at import time when the environment holds a key. -/
def wsEmpty : WeatherService := WeatherService.init none (some "k") "Darbhanga"

/-- `wsEmpty` after a successful fetch of 25 °C at time 0. -/
def wsCached : WeatherService :=
  { wsEmpty with cached_data := some 25, last_fetch := 0 }

/-- `wsEmpty` after a successful fetch of exactly 0 °C at time 0. -/
def wsZero : WeatherService :=
  { wsEmpty with cached_data := some 0, last_fetch := 0 }

/-- Initial state of the Flask process when no API key is configured. -/
def st0 : AppState :=
  { sensor := initSensorData, weather := WeatherService.init none none "Darbhanga" }

/-- Process state with a populated weather cache. -/
def st1 : AppState := { sensor := initSensorData, weather := wsCached }

/-- A fully-populated `/predict` request at noon with zero temperature,
zero occupancy, weekday. -/
def req0 : PredictRequest :=
  { hour := some 12, temperature := some 0, occupancy := some 0, is_weekend := some 0 }

/-- A `/predict` request missing the required `hour` field. -/
def reqMissingHour : PredictRequest :=
  { hour := none, temperature := some 0, occupancy := some 0, is_weekend := some 0 }

/-- A `/predict` request missing the required `occupancy` field. -/
def reqMissingOcc : PredictRequest :=
  { hour := some 1, temperature := none, occupancy := none, is_weekend := some 0 }

/-! ### Claims about the rule-based formula -/

/-- Claim C3: for every hour, temperature, occupancy and weekend flag,
the rule-based predictor returns exactly
`200 + 5·temperature + 2·occupancy + 20·is_weekend +
10·sin(2π(hour − 12)/24)`; in particular `predict(12, 0, 0, false)`
equals exactly 200, the sine term vanishing at hour 12. -/
theorem C3_rule_based_formula :
    (∀ (h t o : ℝ) (b : Bool),
      rule_based_predict h t o (if b then 1 else 0) =
        200 + 5 * t + 2 * o + (if b then 20 else 0) +
          10 * Real.sin (2 * Real.pi * (h - 12) / 24)) ∧
    rule_based_predict 12 0 0 0 = 200 := by
  constructor
  · intro h t o b
    cases b <;> norm_num [rule_based_predict]
  · exact aux_noon

/-- Claim C4: holding hour, temperature and occupancy fixed, a truthy
weekend flag raises the rule-based prediction by exactly 20. -/
theorem C4_weekend_uplift (h t o : ℝ) (w : ℤ) (hw : w ≠ 0) :
    rule_based_predict h t o w - rule_based_predict h t o 0 = 20 := by
  norm_num [rule_based_predict, hw]

/-- Witness for C4 at `h = 12, t = 0, o = 0, w = 1`. -/
theorem C4_weekend_uplift_witness :
    rule_based_predict 12 0 0 1 - rule_based_predict 12 0 0 0 = 20 :=
  C4_weekend_uplift 12 0 0 1 (by decide)

/-- Claim C9: the dashboard's client-side fallback formula coincides
with the backend's rule-based predictor on every input. -/
theorem C9_fallback_matches_backend (h t o : ℝ) (w : ℤ) :
    dashboard_fallback_predict h t o w = rule_based_predict h t o w := rfl

/-! ### Claim C1: where the safety cap lives -/

/-- Claim C1 falsified: with the sensor store in its initial state
(`power_kW` absent, read as 0) the claimed ceiling is
`max(0 − clamp(0.15·0, 10, 60), 0) = 0`, yet `POST /predict` with
`hour = 12, temperature = 0, occupancy = 0, is_weekend = 0` returns
`predicted_usage_kW = 200`: the service applies no clamp at all and
never consults the sensor snapshot. -/
theorem C1_counterexample :
    (predict st0 req0 0 FetchResult.badFormat).1 =
      Except.ok { predicted_usage_kW := 200, model_type := "rule-based",
                  temperature_used := 0 } ∧
    dashboard_power st0.sensor = 0 ∧
    ¬ ((200 : ℝ) ≤
        max ((dashboard_power st0.sensor : ℝ) -
          max 10 (min 60 ((15 / 100) * max (dashboard_power st0.sensor : ℝ) 0))) 0) := by
  have hc : ((12 : ℚ) : ℝ) = 12 := by norm_num
  have hc0 : ((0 : ℚ) : ℝ) = 0 := by norm_num
  have h1 : pyRound2R (rule_based_predict ((12 : ℚ) : ℝ) ((0 : ℚ) : ℝ) ((0 : ℚ) : ℝ) 0)
      = 200 := by
    rw [hc, hc0, aux_noon]
    have h := aux_pyRound2R_intCast 200
    norm_num at h
    exact h
  have h2 : pyRound1 (0 : ℚ) = 0 := by
    have h := aux_pyRound1_intCast 0
    norm_num at h
    exact h
  have heval : (predict st0 req0 0 FetchResult.badFormat).1 =
      Except.ok
        { predicted_usage_kW :=
            pyRound2R (rule_based_predict ((12 : ℚ) : ℝ) ((0 : ℚ) : ℝ) ((0 : ℚ) : ℝ) 0)
          model_type := "rule-based"
          temperature_used := pyRound1 (0 : ℚ) } := rfl
  refine ⟨?_, rfl, ?_⟩
  · rw [heval, h1, h2]
  · norm_num [st0, initSensorData, dashboard_power]

/-- Claim C1 (amended): the safety cap is applied client-side by the
dashboard, not by the service: whatever prediction value the dashboard
receives and whatever the current sensor power, the dashboard-clamped
value is at most `max(current − buffer_kW(current), 0)`, and whenever
the received value exceeds that ceiling the clamped value equals the
ceiling. -/
theorem C1_clamp_is_dashboard_side (p : ℝ) (c : ℚ) :
    dashboard_clamp p c ≤ (max_allowedQ c : ℝ) ∧
    (max_allowedQ c : ℝ) = max ((c : ℝ) - (buffer_kW c : ℝ)) 0 ∧
    ((max_allowedQ c : ℝ) < p → dashboard_clamp p c = (max_allowedQ c : ℝ)) := by
  refine ⟨?_, ?_, ?_⟩
  · unfold dashboard_clamp
    split
    next => exact le_rfl
    next h => exact le_of_not_lt h
  · unfold max_allowedQ
    push_cast
    rfl
  · intro hp
    unfold dashboard_clamp
    rw [if_pos hp]

/-- Witness for the amended C1, on the spec's own scenario: current
power 300 kW, raw prediction 500 kW → buffer 45, ceiling 255, clamped
prediction 255. -/
theorem C1_clamp_is_dashboard_side_witness :
    buffer_kW 300 = 45 ∧ max_allowedQ 300 = 255 ∧ dashboard_clamp 500 300 = 255 := by
  have hmax : max (300 : ℚ) 0 = 300 := max_eq_left (by norm_num)
  have hb : buffer_kW 300 = 45 := by
    unfold buffer_kW
    rw [hmax]
    have h45 : (0.15 : ℚ) * 300 = ((45 : ℤ) : ℚ) := by norm_num
    rw [h45, aux_pyRound1_intCast]
    push_cast
    rw [min_eq_right (by norm_num), max_eq_right (by norm_num)]
  have hm : max_allowedQ 300 = 255 := by
    unfold max_allowedQ
    have h255 : (300 : ℚ) - 45 = 255 := by norm_num
    rw [hb, h255, max_eq_left (by norm_num)]
  have hclamp : dashboard_clamp 500 300 = 255 := by
    have h := (C1_clamp_is_dashboard_side 500 300).2.2
    rw [hm] at h
    have h2 := h (by norm_num)
    rw [h2]
    norm_num
  exact ⟨hb, hm, hclamp⟩

/-! ### Claim C2: missing required fields -/

/-- Claim C2 falsified: a `POST /predict` body missing `hour` produces
HTTP status 500 — an uncaught `KeyError` turned into a server error by
Flask — which is not a 4xx client error; the state is unchanged. -/
theorem C2_counterexample :
    statusOf (predict st0 reqMissingHour 0 FetchResult.badFormat).1 = 500 ∧
    ¬ (400 ≤ statusOf (predict st0 reqMissingHour 0 FetchResult.badFormat).1 ∧
        statusOf (predict st0 reqMissingHour 0 FetchResult.badFormat).1 < 500) ∧
    (predict st0 reqMissingHour 0 FetchResult.badFormat).2 = st0 := by
  have h : statusOf (predict st0 reqMissingHour 0 FetchResult.badFormat).1 = 500 := rfl
  refine ⟨h, ?_, rfl⟩
  rw [h]
  decide

/-- Claim C2 (amended): a `POST /predict` body missing a required field
(`hour`, `occupancy` or `is_weekend`) raises `KeyError` before any
state is touched, so the service answers with a 500 server error (not a
4xx) and the sensor snapshot, weather cache and configured city are all
unchanged. -/
theorem C2_missing_field_500 (st : AppState) (req : PredictRequest) (now : ℚ)
    (f : FetchResult)
    (hmiss : req.hour = none ∨ req.occupancy = none ∨ req.is_weekend = none) :
    statusOf (predict st req now f).1 = 500 ∧ (predict st req now f).2 = st := by
  rcases hmiss with h | h | h
  · simp [predict, h, statusOf]
  · cases hh : req.hour with
    | none => simp [predict, hh, statusOf]
    | some x => simp [predict, hh, h, statusOf]
  · cases hh : req.hour with
    | none => simp [predict, hh, statusOf]
    | some x =>
        cases ho : req.occupancy with
        | none => simp [predict, hh, ho, statusOf]
        | some y => simp [predict, hh, ho, h, statusOf]

/-- Witness for the amended C2 at a request missing `occupancy`. -/
theorem C2_missing_field_500_witness :
    statusOf (predict st0 reqMissingOcc 0 FetchResult.badFormat).1 = 500 ∧
    (predict st0 reqMissingOcc 0 FetchResult.badFormat).2 = st0 :=
  C2_missing_field_500 st0 reqMissingOcc 0 FetchResult.badFormat (Or.inr (Or.inl rfl))

/-! ### Claims C5, C6, C10: the temperature cache -/

/-- Claim C5 falsified: when the fetch that populates the cache stores
exactly 0 °C, a second call 100 s later (well inside the 300 s timeout,
with no intervening fetch) does not return the cached value — the
truthiness test treats the cache as absent, a fresh fetch runs and here
returns 25 ≠ 0. -/
theorem C5_counterexample :
    (get_current_temperature wsEmpty 0 (FetchResult.ok 0)).1 = 0 ∧
    (get_current_temperature wsEmpty 0 (FetchResult.ok 0)).2.1.cached_data = some 0 ∧
    (get_current_temperature wsEmpty 0 (FetchResult.ok 0)).2.1.last_fetch = 0 ∧
    (get_current_temperature wsEmpty 0 (FetchResult.ok 0)).2.1.cache_timeout = 300 ∧
    (100 : ℚ) - 0 < 300 ∧
    (get_current_temperature
        (get_current_temperature wsEmpty 0 (FetchResult.ok 0)).2.1
        100 (FetchResult.ok 25)).2.2 = true ∧
    (get_current_temperature
        (get_current_temperature wsEmpty 0 (FetchResult.ok 0)).2.1
        100 (FetchResult.ok 25)).1 = 25 ∧
    ¬ ((25 : ℚ) = 0) := by
  refine ⟨rfl, rfl, rfl, rfl, by norm_num, rfl, rfl, by norm_num⟩

/-- Claim C5 (amended): with an API key configured, if the fetch that
populated the cache stored a nonzero value `v` and the second call
comes less than `cache_timeout` after it with no intervening successful
fetch, both calls return `v` and the second performs no fetch and
leaves the state unchanged; a call made once the timeout has elapsed
always performs exactly one fresh fetch.  (When the cached value is
exactly 0 the cache is treated as absent — see C10.) -/
theorem C5_cache_behavior :
    (∀ (s : WeatherService) (t1 t2 v : ℚ) (f2 : FetchResult),
      hasKey s = true → cacheHit s t1 = false → v ≠ 0 →
      t2 - t1 < s.cache_timeout →
      (get_current_temperature s t1 (FetchResult.ok v)).1 = v ∧
      (get_current_temperature s t1 (FetchResult.ok v)).2.2 = true ∧
      (get_current_temperature
          (get_current_temperature s t1 (FetchResult.ok v)).2.1 t2 f2).1 = v ∧
      (get_current_temperature
          (get_current_temperature s t1 (FetchResult.ok v)).2.1 t2 f2).2.2 = false ∧
      (get_current_temperature
          (get_current_temperature s t1 (FetchResult.ok v)).2.1 t2 f2).2.1 =
        (get_current_temperature s t1 (FetchResult.ok v)).2.1) ∧
    (∀ (s : WeatherService) (t : ℚ) (f : FetchResult),
      hasKey s = true → s.cache_timeout ≤ t - s.last_fetch →
      (get_current_temperature s t f).2.2 = true) := by
  constructor
  · intro s t1 t2 v f2 hk hm hv ht
    have h1 : get_current_temperature s t1 (FetchResult.ok v) =
        (v, { s with cached_data := some v, last_fetch := t1 }, true) := by
      rw [aux_get_temp_miss s t1 (FetchResult.ok v) hk hm]
      rfl
    have hk2 : hasKey { s with cached_data := some v, last_fetch := t1 } = true := hk
    have h2 : get_current_temperature
        { s with cached_data := some v, last_fetch := t1 } t2 f2 =
        (v, { s with cached_data := some v, last_fetch := t1 }, false) :=
      aux_get_temp_hit _ t2 f2 v hk2 rfl hv (by simpa using ht)
    rw [h1]
    exact ⟨rfl, rfl, by rw [h2], by rw [h2], by rw [h2]⟩
  · intro s t f hk ht
    have hm : cacheHit s t = false := by
      unfold cacheHit
      cases hs : s.cached_data with
      | none => rfl
      | some v =>
          simp only [decide_eq_false_iff_not]
          rintro ⟨-, hlt⟩
          exact absurd hlt (not_lt.mpr ht)
    rw [aux_get_temp_miss s t f hk hm]
    exact aux_fetchFresh_fetched s t f

/-- Witness for the amended C5: empty cache, fetch stores 25 at time 0,
second call at time 100 serves the cached 25 without fetching; and a
call at time 300 on the populated cache fetches afresh. -/
theorem C5_cache_behavior_witness :
    ((get_current_temperature wsEmpty 0 (FetchResult.ok 25)).1 = 25 ∧
     (get_current_temperature wsEmpty 0 (FetchResult.ok 25)).2.2 = true ∧
     (get_current_temperature
         (get_current_temperature wsEmpty 0 (FetchResult.ok 25)).2.1
         100 FetchResult.badFormat).1 = 25 ∧
     (get_current_temperature
         (get_current_temperature wsEmpty 0 (FetchResult.ok 25)).2.1
         100 FetchResult.badFormat).2.2 = false ∧
     (get_current_temperature
         (get_current_temperature wsEmpty 0 (FetchResult.ok 25)).2.1
         100 FetchResult.badFormat).2.1 =
       (get_current_temperature wsEmpty 0 (FetchResult.ok 25)).2.1) ∧
    (get_current_temperature wsCached 300 (FetchResult.ok 30)).2.2 = true := by
  constructor
  · exact C5_cache_behavior.1 wsEmpty 0 100 25 FetchResult.badFormat rfl rfl
      (by norm_num)
      (by show (100 : ℚ) - 0 < wsEmpty.cache_timeout
          norm_num [wsEmpty, WeatherService.init])
  · exact C5_cache_behavior.2 wsCached 300 (FetchResult.ok 30) rfl
      (by show wsCached.cache_timeout ≤ (300 : ℚ) - wsCached.last_fetch
          norm_num [wsCached, wsEmpty, WeatherService.init])

/-- Claim C6: a `get_current_temperature` call that misses the cache
and whose fetch fails in any way returns the default 22 and leaves the
service state — in particular `cached_data` and `last_fetch` — exactly
as it was. -/
theorem C6_fetch_failure_default (s : WeatherService) (now : ℚ) (f : FetchResult)
    (hk : hasKey s = true) (hm : cacheHit s now = false)
    (hf : ∀ t, f ≠ FetchResult.ok t) :
    (get_current_temperature s now f).1 = 22 ∧
    (get_current_temperature s now f).2.1 = s := by
  rw [aux_get_temp_miss s now f hk hm]
  cases f with
  | ok t => exact absurd rfl (hf t)
  | badFormat => exact ⟨rfl, rfl⟩
  | requestError m => exact ⟨rfl, rfl⟩
  | otherError m => exact ⟨rfl, rfl⟩

/-- Witness for C6: empty cache, network exception. -/
theorem C6_fetch_failure_default_witness :
    (get_current_temperature wsEmpty 5 (FetchResult.requestError "timeout")).1 = 22 ∧
    (get_current_temperature wsEmpty 5 (FetchResult.requestError "timeout")).2.1 = wsEmpty :=
  C6_fetch_failure_default wsEmpty 5 (FetchResult.requestError "timeout") rfl rfl
    (fun t h => FetchResult.noConfusion h)

/-- Claim C10: a cached value of exactly 0 is treated as missing — even
with a fresh timestamp the call consults the network, returning the
fetched value on success and 22 on failure — because line 31 tests the
truthiness of `_cached_data` rather than its presence. -/
theorem C10_zero_cache_ignored (s : WeatherService) (now : ℚ) (f : FetchResult)
    (hk : hasKey s = true) (hv : s.cached_data = some 0)
    (ht : now - s.last_fetch < s.cache_timeout) :
    (get_current_temperature s now f).2.2 = true ∧
    (∀ t, f = FetchResult.ok t → (get_current_temperature s now f).1 = t) ∧
    ((∀ t, f ≠ FetchResult.ok t) → (get_current_temperature s now f).1 = 22) := by
  have hm : cacheHit s now = false := by
    unfold cacheHit
    rw [hv]
    simp
  rw [aux_get_temp_miss s now f hk hm]
  refine ⟨aux_fetchFresh_fetched s now f, ?_, ?_⟩
  · rintro t rfl
    rfl
  · intro hf
    cases f with
    | ok t => exact absurd rfl (hf t)
    | badFormat => rfl
    | requestError m => rfl
    | otherError m => rfl

/-- Witness for C10: cache populated with 0 at time 0, call at time
100 — inside the timeout — fetches and returns the fresh 25. -/
theorem C10_zero_cache_ignored_witness :
    (get_current_temperature wsZero 100 (FetchResult.ok 25)).2.2 = true ∧
    (get_current_temperature wsZero 100 (FetchResult.ok 25)).1 = 25 := by
  have h := C10_zero_cache_ignored wsZero 100 (FetchResult.ok 25) rfl rfl
    (by show (100 : ℚ) - wsZero.last_fetch < wsZero.cache_timeout
        norm_num [wsZero, wsEmpty, WeatherService.init])
  exact ⟨h.1, h.2.1 25 rfl⟩

/-! ### Claim C7: the full weather reading -/

/-- Weather service constructed with no credential anywhere. -/
def wsNoKey : WeatherService := WeatherService.init none none "Darbhanga"

/-- Claim C7: `get_weather_info` is a total function — it never raises
to its caller — that never writes the temperature cache (the state
comes back unchanged) and never reads it (the reading depends only on
the key and the city); with no key it returns temperature 22,
description "Clear" and a non-null error, and on any fetch failure it
returns temperature 22, description "Unknown" and the error message. -/
theorem C7_weather_info_safe (s : WeatherService) (f : InfoFetch) :
    (get_weather_info s f).2 = s ∧
    (∀ s2 : WeatherService, s2.api_key = s.api_key → s2.city = s.city →
      (get_weather_info s2 f).1 = (get_weather_info s f).1) ∧
    (hasKey s = false →
      (get_weather_info s f).1.temperature = 22 ∧
      (get_weather_info s f).1.description = "Clear" ∧
      (get_weather_info s f).1.error = some "No API key") ∧
    (∀ msg, hasKey s = true → f = InfoFetch.exn msg →
      (get_weather_info s f).1.temperature = 22 ∧
      (get_weather_info s f).1.description = "Unknown" ∧
      (get_weather_info s f).1.error = some msg) := by
  refine ⟨?_, ?_, ?_, ?_⟩
  · unfold get_weather_info
    split
    · rfl
    · cases f <;> rfl
  · intro s2 hkey hcity
    unfold get_weather_info hasKey
    rw [hkey, hcity]
    split
    · rfl
    · cases f <;> rfl
  · intro hk
    simp [get_weather_info, hk]
  · intro msg hk hf
    subst hf
    simp [get_weather_info, hk]

/-- Witness for C7: the no-key reading and a concrete exception
reading. -/
theorem C7_weather_info_safe_witness :
    ((get_weather_info wsNoKey (InfoFetch.exn "boom")).1.temperature = 22 ∧
     (get_weather_info wsNoKey (InfoFetch.exn "boom")).1.description = "Clear" ∧
     (get_weather_info wsNoKey (InfoFetch.exn "boom")).1.error = some "No API key") ∧
    ((get_weather_info wsEmpty (InfoFetch.exn "boom")).1.temperature = 22 ∧
     (get_weather_info wsEmpty (InfoFetch.exn "boom")).1.description = "Unknown" ∧
     (get_weather_info wsEmpty (InfoFetch.exn "boom")).1.error = some "boom") :=
  ⟨(C7_weather_info_safe wsNoKey (InfoFetch.exn "boom")).2.2.1 rfl,
   (C7_weather_info_safe wsEmpty (InfoFetch.exn "boom")).2.2.2 "boom" rfl rfl⟩

/-! ### Claim C8: changing the city -/

/-- Claim C8: `set_city` with a city that is non-empty after stripping
returns 200 and mutates only the configured city — API key, cache
timeout, cache entry (`cached_data` and `last_fetch`) and sensor
snapshot are untouched — so a subsequent in-timeout
`get_current_temperature` still serves the value cached under the
previous city, without fetching; an empty or missing city yields a 400
and changes nothing. -/
theorem C8_set_city (st : AppState) (req : SetCityRequest) :
    (pyStrip (req.city.getD "") ≠ "" →
      (set_city st req).1.1 = 200 ∧
      (set_city st req).1.2 = some (pyStrip (req.city.getD "")) ∧
      (set_city st req).2.weather.city = pyStrip (req.city.getD "") ∧
      (set_city st req).2.weather.api_key = st.weather.api_key ∧
      (set_city st req).2.weather.cache_timeout = st.weather.cache_timeout ∧
      (set_city st req).2.weather.last_fetch = st.weather.last_fetch ∧
      (set_city st req).2.weather.cached_data = st.weather.cached_data ∧
      (set_city st req).2.sensor = st.sensor ∧
      (∀ (now : ℚ) (f : FetchResult) (v : ℚ),
        hasKey st.weather = true → st.weather.cached_data = some v → v ≠ 0 →
        now - st.weather.last_fetch < st.weather.cache_timeout →
        (get_current_temperature (set_city st req).2.weather now f).1 = v ∧
        (get_current_temperature (set_city st req).2.weather now f).2.2 = false)) ∧
    (pyStrip (req.city.getD "") = "" →
      (set_city st req).1.1 = 400 ∧ (set_city st req).2 = st) := by
  by_cases h : pyStrip (req.city.getD "") = ""
  · refine ⟨fun hne => absurd h hne, fun _ => ?_⟩
    simp [set_city, h]
  · refine ⟨fun _ => ?_, fun he => absurd he h⟩
    have hs : set_city st req =
        ((200, some (pyStrip (req.city.getD ""))),
         { st with weather :=
            { st.weather with city := pyStrip (req.city.getD "") } }) := by
      simp [set_city, h]
    rw [hs]
    refine ⟨rfl, rfl, rfl, rfl, rfl, rfl, rfl, rfl, ?_⟩
    intro now f v hk hv h0 ht
    have hval := aux_get_temp_hit
      { st.weather with city := pyStrip (req.city.getD "") } now f v hk hv h0 ht
    rw [hval]
    exact ⟨rfl, rfl⟩

/-- Witness for C8: with a 25 °C entry cached at time 0,
`set_city " Paris "` returns 200, the city becomes "Paris", the cache
entry survives, and a read at time 100 still serves the cached 25
without fetching; `set_city` with a missing city gives a 400 and no
change. -/
theorem C8_set_city_witness :
    (set_city st1 { city := some " Paris " }).1.1 = 200 ∧
    (set_city st1 { city := some " Paris " }).2.weather.city = "Paris" ∧
    (set_city st1 { city := some " Paris " }).2.weather.cached_data =
      st1.weather.cached_data ∧
    (get_current_temperature (set_city st1 { city := some " Paris " }).2.weather 100
        FetchResult.badFormat).1 = 25 ∧
    (get_current_temperature (set_city st1 { city := some " Paris " }).2.weather 100
        FetchResult.badFormat).2.2 = false ∧
    (set_city st1 { city := none }).1.1 = 400 ∧
    (set_city st1 { city := none }).2 = st1 := by
  have hstrip : pyStrip ((some " Paris " : Option String).getD "") = "Paris" := by decide
  have hne : pyStrip ((some " Paris " : Option String).getD "") ≠ "" := by decide
  have h1 := (C8_set_city st1 { city := some " Paris " }).1 hne
  have h2 := (C8_set_city st1 { city := none }).2 (by decide)
  have hget := h1.2.2.2.2.2.2.2.2 100 FetchResult.badFormat 25 rfl rfl (by norm_num)
    (by show (100 : ℚ) - st1.weather.last_fetch < st1.weather.cache_timeout
        norm_num [st1, wsCached, wsEmpty, WeatherService.init])
  refine ⟨h1.1, ?_, h1.2.2.2.2.2.2.1, hget.1, hget.2, h2.1, h2.2⟩
  rw [h1.2.2.1, hstrip]
